import Mathlib

/-!
Verification of the FileInsight service layer (src/services/geminiService.ts,
src/components/FileUploader.tsx, src/constants.ts).

The repository ships two historical variants of the service module,
concatenated in geminiService.ts; suffix 1 refers to the first variant
(lines 1-371, `ensureFileSearchStore`, the importFile poll loop), suffix 2
to the second (lines 372-638, `withRetry`, `getOrCreateStore`,
`waitForFileActive`, the 404-handling `sendMessageStream`).

Async code is embedded by explicit state passing: each network call or
timer suspension point is represented by its outcome (`Except JsError α`),
supplied through an environment record, and module-level mutable state
(`fileSearchStorePromise`, `activeStoreName`, `currentChat`) is threaded
explicitly.
-/

/-- A thrown JavaScript error value as inspected by `getErrorStatus`
(geminiService.ts lines 393-400): a message plus the optional numeric
fields `status`, `code`, `error.code`, `error.status` (the nested
`error` object is flattened into the `inner*` fields). -/
structure JsError where
  message : String
  status : Option Int := none
  code : Option Int := none
  innerCode : Option Int := none
  innerStatus : Option Int := none
  deriving Repr, DecidableEq

/-- `getErrorStatus` (lines 393-400): extract an HTTP status from an error,
checking `err.status`, `err.code`, `err.error.code`, `err.error.status`
in that order, returning 0 when absent (or when `err` itself is null). -/
def getErrorStatus : Option JsError → Int
  | none => 0
  | some err =>
    match err.status with
    | some s => s
    | none =>
      match err.code with
      | some c => c
      | none =>
        match err.innerCode with
        | some c => c
        | none =>
          match err.innerStatus with
          | some s => s
          | none => 0

/-- `MAX_RETRIES` (line 376). -/
def MAX_RETRIES : Nat := 3

/-- `RETRY_DELAY_BASE` (line 377), in milliseconds. -/
def RETRY_DELAY_BASE : Nat := 1000

/-- The transience test of `withRetry` (line 408):
`status === 429 || status >= 500`. -/
def isTransientStatus (s : Int) : Bool :=
  s == 429 || decide (500 ≤ s)

/-- `withRetry` (lines 403-416).  The wrapped operation is embedded as a
stream `fn : Nat → Except JsError α` giving the outcome of its k-th
invocation; the result records the value or final error, the number of
invocations made, and the list of backoff delays awaited (in order).
The delay before a retry is `RETRY_DELAY_BASE * 2 ^ (MAX_RETRIES - retries)`
computed with the current `retries` value, exactly as in the source. -/
def withRetry {α : Type} (fn : Nat → Except JsError α) :
    Nat → Nat → Except JsError α × Nat × List Nat
  | 0, k =>
    match fn k with
    | Except.ok v => (Except.ok v, 1, [])
    | Except.error e => (Except.error e, 1, [])
  | r + 1, k =>
    match fn k with
    | Except.ok v => (Except.ok v, 1, [])
    | Except.error e =>
      if isTransientStatus (getErrorStatus (some e)) then
        let d := RETRY_DELAY_BASE * 2 ^ (MAX_RETRIES - (r + 1))
        let rest := withRetry fn r (k + 1)
        (rest.1, rest.2.1 + 1, d :: rest.2.2)
      else (Except.error e, 1, [])

/-- C5: the retry policy retries transient errors (HTTP 429 or ≥ 500) with
backoff `RETRY_DELAY_BASE * 2^attempt`; two transient failures followed by a
success give exactly two retries (three invocations) returning the success
value with delays 1000, 2000; a permanent error is propagated unchanged
immediately with no retry and no delay; four transient failures exhaust the
three retries (delays 1000, 2000, 4000) and propagate the final error
unchanged. -/
theorem withRetry_spec :
    (∀ (fn : Nat → Except JsError Nat) (e0 e1 : JsError) (v : Nat),
      fn 0 = Except.error e0 → isTransientStatus (getErrorStatus (some e0)) = true →
      fn 1 = Except.error e1 → isTransientStatus (getErrorStatus (some e1)) = true →
      fn 2 = Except.ok v →
      withRetry fn MAX_RETRIES 0 =
        (Except.ok v, 3, [RETRY_DELAY_BASE, RETRY_DELAY_BASE * 2])) ∧
    (∀ (fn : Nat → Except JsError Nat) (e : JsError),
      fn 0 = Except.error e → isTransientStatus (getErrorStatus (some e)) = false →
      withRetry fn MAX_RETRIES 0 = (Except.error e, 1, [])) ∧
    (∀ (fn : Nat → Except JsError Nat) (e0 e1 e2 e3 : JsError),
      fn 0 = Except.error e0 → isTransientStatus (getErrorStatus (some e0)) = true →
      fn 1 = Except.error e1 → isTransientStatus (getErrorStatus (some e1)) = true →
      fn 2 = Except.error e2 → isTransientStatus (getErrorStatus (some e2)) = true →
      fn 3 = Except.error e3 →
      withRetry fn MAX_RETRIES 0 =
        (Except.error e3, 4,
          [RETRY_DELAY_BASE, RETRY_DELAY_BASE * 2, RETRY_DELAY_BASE * 4])) := by
  refine ⟨?_, ?_, ?_⟩
  · intro fn e0 e1 v h0 t0 h1 t1 h2
    simp [MAX_RETRIES, withRetry, h0, t0, h1, t1, h2, RETRY_DELAY_BASE]
  · intro fn e h0 t0
    simp [MAX_RETRIES, withRetry, h0, t0]
  · intro fn e0 e1 e2 e3 h0 t0 h1 t1 h2 t2 h3
    simp [MAX_RETRIES, withRetry, h0, t0, h1, t1, h2, t2, h3, RETRY_DELAY_BASE]

/-- A concrete operation stream: rate-limited, then a 503, then success. -/
def retryExampleFn : Nat → Except JsError Nat
  | 0 => Except.error { message := "rate limited", status := some 429 }
  | 1 => Except.error { message := "server error", status := some 503 }
  | _ => Except.ok 7

/-- Witness for C5 at a concrete operation stream. -/
theorem withRetry_spec_witness :
    withRetry retryExampleFn MAX_RETRIES 0 =
      (Except.ok 7, 3, [RETRY_DELAY_BASE, RETRY_DELAY_BASE * 2]) :=
  withRetry_spec.1 retryExampleFn
    { message := "rate limited", status := some 429 }
    { message := "server error", status := some 503 }
    7 rfl rfl rfl rfl rfl

/-- The module-level state of variant 1's store manager: the memoized
in-flight creation promise `fileSearchStorePromise` (line 82), identified
by the index of the creation it wraps, together with a count of creation
operations started so far (each run of the async closure at lines 108-127
issues exactly one `fileSearchStores.create` call). -/
structure StoreMgrState where
  fileSearchStorePromise : Option Nat
  creationsStarted : Nat
  deriving Repr, DecidableEq

/-- `ensureFileSearchStore` (lines 102-130): if a memoized promise exists it
is returned to the caller unchanged; otherwise a new creation is started,
its promise is memoized, and that promise is returned.  Returns the promise
(identified by its creation index) and the new state. -/
def ensureFileSearchStore (s : StoreMgrState) : Nat × StoreMgrState :=
  match s.fileSearchStorePromise with
  | some p => (p, s)
  | none =>
    (s.creationsStarted,
      { fileSearchStorePromise := some s.creationsStarted,
        creationsStarted := s.creationsStarted + 1 })

/-- The failure path of the memoized creation closure (lines 121-126): on a
creation error the memoized promise is reset to null so a later call can
retry; the error itself is rethrown to the joined callers. -/
def settleCreationFailure (s : StoreMgrState) : StoreMgrState :=
  { s with fileSearchStorePromise := none }

/-- JavaScript truthiness of the cached `activeStoreName` (line 425):
`null` and the empty string are falsy. -/
def jsTruthyCache : Option String → Bool
  | none => false
  | some s => s != ""

/-- The observable outcome of one `getOrCreateStore` call: the returned
name or thrown error, the cache (`activeStoreName`) left behind, whether a
liveness `get` was attempted on a cached name, and whether a
`fileSearchStores.create` call was issued. -/
structure StoreResolution where
  result : Except JsError String
  newCache : Option String
  getAttempted : Bool
  createAttempted : Bool
  deriving Repr

/-- The creation half of `getOrCreateStore` (lines 436-445): create the
store through `withRetry` (its final outcome is `createOutcome`, carrying
the possibly-missing `store.name`); on success cache and return
`store.name || ""`; on failure rethrow leaving the cache as it stood. -/
def createStoreHalf (getAttempted : Bool) (cacheHere : Option String)
    (createOutcome : Except JsError (Option String)) : StoreResolution :=
  match createOutcome with
  | Except.ok n =>
    let name := n.getD ""
    { result := Except.ok name, newCache := some name,
      getAttempted := getAttempted, createAttempted := true }
  | Except.error e =>
    { result := Except.error e, newCache := cacheHere,
      getAttempted := getAttempted, createAttempted := true }

/-- `getOrCreateStore` (lines 422-446): with a truthy cached name, verify it
with `fileSearchStores.get` (outcome `getOutcome`) and reuse it on success;
on any get failure null the cache and fall through to creation; with no
truthy cached name, create directly. -/
def getOrCreateStore (cache : Option String) (getOutcome : Except JsError Unit)
    (createOutcome : Except JsError (Option String)) : StoreResolution :=
  match cache with
  | some s =>
    if s != "" then
      match getOutcome with
      | Except.ok _ =>
        { result := Except.ok s, newCache := some s,
          getAttempted := true, createAttempted := false }
      | Except.error _ => createStoreHalf true none createOutcome
    else createStoreHalf false (some s) createOutcome
  | none => createStoreHalf false none createOutcome

/-- The synchronous prefix of a `getOrCreateStore` call, up to its first
await: with a truthy cached name it suspends at the liveness `get`
(line 428), otherwise it suspends at the `create` call (line 437). -/
inductive GocSuspension
  | awaitGet (cached : String)
  | awaitCreate
  deriving Repr, DecidableEq

/-- Where a `getOrCreateStore` call first suspends, as a function of the
cache it reads synchronously on entry. -/
def gocFirstSuspension : Option String → GocSuspension
  | some s => if s != "" then GocSuspension.awaitGet s else GocSuspension.awaitCreate
  | none => GocSuspension.awaitCreate

/-- Resumption of a `getOrCreateStore` call whose `create` await completed
with a store named `n` (lines 440-441): write `store.name || ""` to the
cache and return it. -/
def gocFinishCreate (n : Option String) : String × Option String :=
  let name := n.getD ""
  (name, some name)

/-- A cooperative schedule of two `getOrCreateStore` calls with an
initially empty cache, the second issued before the first's creation
completes.  Both synchronous prefixes read a null cache, so both suspend at
`create`; each resumption then performs its own server-side creation (the
server returns distinct names, here store-0 and store-1).  The result is
(number of create calls issued, first caller's handle, second caller's
handle). -/
def gocConcurrentRun : Nat × String × String :=
  match gocFirstSuspension none with
  | GocSuspension.awaitGet s => (0, s, s)
  | GocSuspension.awaitCreate =>
    match gocFirstSuspension none with
    | GocSuspension.awaitGet s => (0, s, s)
    | GocSuspension.awaitCreate =>
      let a := gocFinishCreate (some "fileSearchStores/store-0")
      let b := gocFinishCreate (some "fileSearchStores/store-1")
      (2, a.1, b.1)

/-- C1 counterexample: for `getOrCreateStore` (named by the claim alongside
`ensureFileSearchStore`), two calls issued before the first's creation
completes issue two create calls and resolve to different handles — the
claim's "exactly one index resource is created and both callers resolve to
the same handle" fails on this variant, which memoizes only the completed
name, never the in-flight operation. -/
theorem getOrCreateStore_concurrent_duplicate :
    gocConcurrentRun.1 = 2 ∧ gocConcurrentRun.2.1 ≠ gocConcurrentRun.2.2 := by
  decide

/-- C1 (amended): two calls to `ensureFileSearchStore`, the second issued
before the creation started by the first completes (no settle event in
between), return the same memoized promise and start exactly one creation;
after a creation failure the memo is cleared, so the next call starts a
fresh creation distinct from the first.  `getOrCreateStore`, by contrast,
starts a second creation for a second call that arrives before the first
completes (see `gocConcurrentRun`). -/
theorem ensureFileSearchStore_single_flight (s0 : StoreMgrState)
    (h : s0.fileSearchStorePromise = none) :
    (ensureFileSearchStore s0).1 = (ensureFileSearchStore (ensureFileSearchStore s0).2).1 ∧
    (ensureFileSearchStore (ensureFileSearchStore s0).2).2.creationsStarted =
      s0.creationsStarted + 1 ∧
    (ensureFileSearchStore
      (settleCreationFailure (ensureFileSearchStore (ensureFileSearchStore s0).2).2)).1 ≠
      (ensureFileSearchStore s0).1 ∧
    (ensureFileSearchStore
      (settleCreationFailure (ensureFileSearchStore (ensureFileSearchStore s0).2).2)).2.creationsStarted =
      s0.creationsStarted + 2 ∧
    gocConcurrentRun.1 = 2 := by
  simp [ensureFileSearchStore, settleCreationFailure, h, gocConcurrentRun,
    gocFirstSuspension, gocFinishCreate]

/-- Witness for C1 from the empty initial state. -/
theorem ensureFileSearchStore_single_flight_witness :
    (ensureFileSearchStore { fileSearchStorePromise := none, creationsStarted := 0 }).1 =
      (ensureFileSearchStore
        (ensureFileSearchStore
          { fileSearchStorePromise := none, creationsStarted := 0 }).2).1 ∧
    (ensureFileSearchStore
      (ensureFileSearchStore
        { fileSearchStorePromise := none, creationsStarted := 0 }).2).2.creationsStarted =
      0 + 1 ∧
    (ensureFileSearchStore
      (settleCreationFailure
        (ensureFileSearchStore
          (ensureFileSearchStore
            { fileSearchStorePromise := none, creationsStarted := 0 }).2).2)).1 ≠
      (ensureFileSearchStore { fileSearchStorePromise := none, creationsStarted := 0 }).1 ∧
    (ensureFileSearchStore
      (settleCreationFailure
        (ensureFileSearchStore
          (ensureFileSearchStore
            { fileSearchStorePromise := none, creationsStarted := 0 }).2).2)).2.creationsStarted =
      0 + 2 ∧
    gocConcurrentRun.1 = 2 :=
  ensureFileSearchStore_single_flight
    { fileSearchStorePromise := none, creationsStarted := 0 } rfl

/-- C6: whenever a truthy cached store name exists, `getOrCreateStore`
attempts the liveness `get` before any reuse; with a live cache it reuses
the cached name without creating; when the liveness check fails (e.g. a
not-found error) it discards the cache, creates a new store, caches and
returns the newly created name — in particular it does not return the stale
name when the server assigns a different one. -/
theorem getOrCreateStore_liveness_check (cache : Option String) (s : String)
    (g : Except JsError Unit) (c : Except JsError (Option String))
    (e : JsError) (n : String)
    (hcache : jsTruthyCache cache = true) (hs : s ≠ "") :
    (getOrCreateStore cache g c).getAttempted = true ∧
    getOrCreateStore (some s) (Except.ok ()) c =
      { result := Except.ok s, newCache := some s,
        getAttempted := true, createAttempted := false } ∧
    getOrCreateStore (some s) (Except.error e) (Except.ok (some n)) =
      { result := Except.ok n, newCache := some n,
        getAttempted := true, createAttempted := true } ∧
    (n ≠ s →
      (getOrCreateStore (some s) (Except.error e) (Except.ok (some n))).result ≠
        Except.ok s) := by
  obtain ⟨t, rfl⟩ : ∃ t, cache = some t := by
    cases cache with
    | none => simp [jsTruthyCache] at hcache
    | some t => exact ⟨t, rfl⟩
  have ht : t ≠ "" := by
    simpa [jsTruthyCache] using hcache
  refine ⟨?_, ?_, ?_, ?_⟩
  · cases g with
    | ok u => simp [getOrCreateStore, ht]
    | error e2 => cases c with
      | ok n2 => simp [getOrCreateStore, createStoreHalf, ht]
      | error e3 => simp [getOrCreateStore, createStoreHalf, ht]
  · simp [getOrCreateStore, hs]
  · simp [getOrCreateStore, createStoreHalf, hs]
  · intro hne
    simp [getOrCreateStore, createStoreHalf, hs, hne]

/-- Witness for C6 at a concrete stale cache. -/
theorem getOrCreateStore_liveness_check_witness :
    (getOrCreateStore (some "fileSearchStores/old") (Except.error { message := "not found", status := some 404 }) (Except.ok (some "fileSearchStores/new"))).getAttempted = true ∧
    getOrCreateStore (some "fileSearchStores/old") (Except.ok ()) (Except.ok (some "fileSearchStores/new")) =
      { result := Except.ok "fileSearchStores/old", newCache := some "fileSearchStores/old",
        getAttempted := true, createAttempted := false } ∧
    getOrCreateStore (some "fileSearchStores/old")
        (Except.error { message := "not found", status := some 404 })
        (Except.ok (some "fileSearchStores/new")) =
      { result := Except.ok "fileSearchStores/new", newCache := some "fileSearchStores/new",
        getAttempted := true, createAttempted := true } ∧
    ("fileSearchStores/new" ≠ "fileSearchStores/old" →
      (getOrCreateStore (some "fileSearchStores/old")
        (Except.error { message := "not found", status := some 404 })
        (Except.ok (some "fileSearchStores/new"))).result ≠
        Except.ok "fileSearchStores/old") :=
  getOrCreateStore_liveness_check (some "fileSearchStores/old") "fileSearchStores/old"
    (Except.error { message := "not found", status := some 404 })
    (Except.ok (some "fileSearchStores/new"))
    { message := "not found", status := some 404 } "fileSearchStores/new"
    (by decide) (by decide)

/-- `FILE_PROCESSING_POLL_INTERVAL` (constants, 2000 ms), the delay used by
variant 1's import poll loop. -/
def FILE_PROCESSING_POLL_INTERVAL : Nat := 2000

/-- Variant 1's import poll loop (lines 228-231):
`while (!operation.done) { await delay(...); operation = await ai.operations.get(...) }`.
The operation's `done` flag across successive polls is the stream `ops`
(`ops 0` is the flag of the operation returned by `importFile`); the loop
itself has no timeout or iteration bound, so the embedding carries an
explicit fuel counting further polls allowed, returning the index at which
`done` was observed or `none` when the loop is still running after `fuel`
further polls. -/
def pollUntilDone (ops : Nat → Bool) : Nat → Nat → Option Nat
  | 0, k => if ops k then some k else none
  | f + 1, k => if ops k then some k else pollUntilDone ops f (k + 1)

/-- The file state returned by `ai.files.get` as tested by
`waitForFileActive` (lines 458-460). -/
inductive FileState
  | active
  | failed
  | processing
  deriving Repr, DecidableEq

/-- The outcome of `waitForFileActive`: the file became active at poll
index k, the loop threw the server-failure error, it rethrew a non-404 get
error, or it exhausted its 60 iterations and threw the timeout error. -/
inductive WaitResult
  | fileActive (k : Nat)
  | serverFailed
  | thrownErr (e : JsError)
  | timedOut
  deriving Repr, DecidableEq

/-- `maxRetries` of `waitForFileActive` (line 454): 60 polls. -/
def waitMaxRetries : Nat := 60

/-- The fixed delay of `waitForFileActive` (line 466), in milliseconds. -/
def waitPollDelayMs : Nat := 2000

/-- The loop body of `waitForFileActive` (lines 456-468), by recursion on
the remaining iteration budget `maxRetries - retries`; `env k` is the
outcome of the k-th `ai.files.get` call.  ACTIVE returns, FAILED throws,
a non-404 get error is rethrown, and anything else (still processing, or a
404 meaning the file is not yet visible) waits 2000 ms and polls again. -/
def waitForFileActiveGo (env : Nat → Except JsError FileState) :
    Nat → Nat → WaitResult
  | 0, _ => WaitResult.timedOut
  | r + 1, k =>
    match env k with
    | Except.ok FileState.active => WaitResult.fileActive k
    | Except.ok FileState.failed => WaitResult.serverFailed
    | Except.ok FileState.processing => waitForFileActiveGo env r (k + 1)
    | Except.error e =>
      if getErrorStatus (some e) != 404 then WaitResult.thrownErr e
      else waitForFileActiveGo env r (k + 1)

/-- `waitForFileActive` (lines 451-470): run the poll loop with the full
60-iteration budget; on exhaustion it throws "File processing timed out.". -/
def waitForFileActive (env : Nat → Except JsError FileState) : WaitResult :=
  waitForFileActiveGo env waitMaxRetries 0

/-- C2 (code evaluated at the failing input): variant 1's import poll loop
never terminates when the operation never reports done — for every fuel it
is still polling, with no timeout path at all — whereas variant 2's
`waitForFileActive` on a never-completing file does terminate with the
timeout error after exactly its 60 polls of 2000 ms, i.e. at the 120 000 ms
(120 s) deadline the claim describes. -/
theorem pollUntilDone_never_times_out :
    (∀ fuel k, pollUntilDone (fun _ => false) fuel k = none) ∧
    waitForFileActive (fun _ => Except.ok FileState.processing) = WaitResult.timedOut ∧
    waitMaxRetries * waitPollDelayMs = 120000 := by
  refine ⟨?_, by decide, by decide⟩
  intro fuel
  induction fuel with
  | zero => intro k; simp [pollUntilDone]
  | succ f ih => intro k; simpa [pollUntilDone] using ih (k + 1)

/-- The file lifecycle status (types.ts line 14). -/
inductive FileStatus
  | pending
  | uploading
  | processing
  | active
  | error
  deriving Repr, DecidableEq

/-- `FileDocument` (types.ts lines 1-16); the native browser `File` handle
is represented only by its presence, and the unused preview fields
(`base64`) are omitted. -/
structure FileDocument where
  id : String
  name : String
  content : String
  fileHandle : Option Unit
  mimeType : String
  type : String
  size : Nat
  uploadDate : Nat
  uploadUri : Option String := none
  status : Option FileStatus := none
  error : Option String := none
  deriving Repr, DecidableEq

/-- Result of one call to an async function at its boundary: a resolved
value, a thrown (rejected) error, or divergence (the call never settles). -/
inductive Outcome (α : Type)
  | ok (a : α)
  | thrown (e : JsError)
  | diverges
  deriving Repr, DecidableEq

/-- Whether an outcome is a thrown error. -/
def Outcome.isThrown {α : Type} : Outcome α → Bool
  | Outcome.thrown _ => true
  | _ => false

/-- JavaScript falsiness of an optional string (`!uploadResult?.name`,
lines 211 and 494): missing or empty. -/
def jsStrFalsy : Option String → Bool
  | none => true
  | some s => s == ""

/-- `un.getD "" ≠ ""` whenever `un` is JS-truthy. -/
theorem jsStrFalsy_false_getD {un : Option String} (h : jsStrFalsy un = false) :
    un.getD "" ≠ "" := by
  cases un with
  | none => simp [jsStrFalsy] at h
  | some s => simpa [jsStrFalsy] using h

/-- `error.message || "Upload failed"` (line 252). -/
def errMessageOr (e : JsError) : String :=
  if e.message == "" then "Upload failed" else e.message

/-- The outcomes of the network suspension points crossed by variant 1's
`uploadFileToGemini` (lines 188-255): API key presence (`getAiClient`,
line 193, outside the try), `ensureFileSearchStore` (line 198),
`ai.files.upload` (line 203, the returned optional resource name),
`importFile` (line 220, the initial operation's done flag), and the stream
of `ai.operations.get` done flags polled at line 230 — embedded as the
finite list of polls that ever settle; a loop that outlives the list
diverges. -/
structure EnvV1 where
  apiKeyOk : Bool
  storeResult : Except JsError String
  uploadResult : Except JsError (Option String)
  importDone : Except JsError Bool
  pollResults : List (Except JsError Bool)

/-- Scan the poll stream of the `while (!operation.done)` loop
(lines 228-231): the first poll that throws or reports done ends the loop;
if no poll ever does, the loop never ends. -/
def firstSettle : List (Except JsError Bool) → Option (Except JsError Unit)
  | [] => none
  | Except.error e :: _ => some (Except.error e)
  | Except.ok true :: _ => some (Except.ok ())
  | Except.ok false :: rest => firstSettle rest

/-- The catch clause of variant 1 (lines 249-253):
`{...fileDoc, status: 'error', error: error.message || "Upload failed"}`. -/
def errDocV1 (d : FileDocument) (e : JsError) : FileDocument :=
  { d with status := some FileStatus.error, error := some (errMessageOr e) }

/-- The success return of variant 1 (lines 235-239):
`{...fileDoc, uploadUri: uploadResult.name, status: 'active'}` — note the
`error` field is spread through unchanged. -/
def activeDocV1 (d : FileDocument) (uri : String) : FileDocument :=
  { d with uploadUri := some uri, status := some FileStatus.active }

/-- The try/catch body of variant 1's `uploadFileToGemini` (lines 196-254):
every throw inside the try is converted by the catch into an error
document, so the body either returns a document or (when the poll loop
never settles) diverges — `none` encodes divergence. -/
def uploadTryCatch1 (fileDoc : FileDocument) (env : EnvV1) : Option FileDocument :=
  match env.storeResult with
  | Except.error e => some (errDocV1 fileDoc e)
  | Except.ok _store =>
    match env.uploadResult with
    | Except.error e => some (errDocV1 fileDoc e)
    | Except.ok un =>
      if jsStrFalsy un then
        some (errDocV1 fileDoc { message := "Upload failed: No resource name returned" })
      else
        match env.importDone with
        | Except.error e => some (errDocV1 fileDoc e)
        | Except.ok true => some (activeDocV1 fileDoc (un.getD ""))
        | Except.ok false =>
          match firstSettle env.pollResults with
          | none => none
          | some (Except.error e) => some (errDocV1 fileDoc e)
          | some (Except.ok _) => some (activeDocV1 fileDoc (un.getD ""))

/-- Variant 1's `uploadFileToGemini` (lines 188-255): the missing-handle
guard (line 190) and `getAiClient` (line 193) sit before the try block and
throw past the boundary; everything else is the caught body. -/
def uploadFileToGemini1 (fileDoc : FileDocument) (env : EnvV1) : Outcome FileDocument :=
  if fileDoc.fileHandle.isNone then
    Outcome.thrown { message := "No file handle found for upload" }
  else if !env.apiKeyOk then
    Outcome.thrown { message := "API Key not set. Please provide your Google AI API key." }
  else
    match uploadTryCatch1 fileDoc env with
    | some d => Outcome.ok d
    | none => Outcome.diverges

/-- The outcomes of the suspension points crossed by variant 2's
`uploadFileToGemini` (lines 475-526): API key presence (line 480, outside
the try), `withRetry(ai.files.upload)` (lines 484-490, its final outcome
after retries), the `ai.files.get` stream consumed by `waitForFileActive`
(line 497), the `getOrCreateStore` collaborators (line 500: the cache it
reads, the liveness-get outcome, the create outcome after retries), and
`withRetry(ai.fileSearchStores.createFile)` (lines 504-507, final
outcome). -/
structure EnvV2 where
  apiKeyOk : Bool
  uploadResult : Except JsError (Option String)
  fileGetResults : Nat → Except JsError FileState
  storeCache : Option String
  storeGetOutcome : Except JsError Unit
  storeCreateOutcome : Except JsError (Option String)
  createFileOutcome : Except JsError Unit

/-- How `waitForFileActive`'s outcome reaches its caller: active resolves,
the other three outcomes are the throws at lines 460, 462 and 469. -/
def waitResultToExcept : WaitResult → Except JsError Unit
  | WaitResult.fileActive _ => Except.ok ()
  | WaitResult.serverFailed => Except.error { message := "File processing failed on server." }
  | WaitResult.thrownErr e => Except.error e
  | WaitResult.timedOut => Except.error { message := "File processing timed out." }

/-- The catch clause of variant 2 (lines 520-525): a caught 403 is replaced
by a permission message, otherwise the error's own message is kept;
`{...fileDoc, status: "error", error: msg}`. -/
def errDocV2 (d : FileDocument) (e : JsError) : FileDocument :=
  let msg := if getErrorStatus (some e) == 403 then "Permission denied. Check API key."
             else e.message
  { d with status := some FileStatus.error, error := some msg }

/-- The try/catch body of variant 2's `uploadFileToGemini` (lines 482-525):
upload with retries, require a truthy URI, wait for the file to become
ACTIVE, resolve the store, add the file to it, and on success return
`{...fileDoc, status: "active", uploadUri: fileUri, error: undefined}`;
every throw inside the try becomes an error document.  All steps are
bounded, so the body always returns a document. -/
def uploadTryCatch2 (fileDoc : FileDocument) (env : EnvV2) : FileDocument :=
  match env.uploadResult with
  | Except.error e => errDocV2 fileDoc e
  | Except.ok un =>
    if jsStrFalsy un then errDocV2 fileDoc { message := "Upload failed: No URI returned." }
    else
      match waitResultToExcept (waitForFileActive env.fileGetResults) with
      | Except.error e => errDocV2 fileDoc e
      | Except.ok _ =>
        match (getOrCreateStore env.storeCache env.storeGetOutcome env.storeCreateOutcome).result with
        | Except.error e => errDocV2 fileDoc e
        | Except.ok _storeName =>
          match env.createFileOutcome with
          | Except.error e => errDocV2 fileDoc e
          | Except.ok _ =>
            { fileDoc with status := some FileStatus.active,
                           uploadUri := some (un.getD ""), error := none }

/-- Variant 2's `uploadFileToGemini` (lines 475-526): the missing-handle
guard (line 478) and `getAiClient` (line 480) sit before the try block and
throw past the boundary; everything else is the caught body. -/
def uploadFileToGemini2 (fileDoc : FileDocument) (env : EnvV2) : Outcome FileDocument :=
  if fileDoc.fileHandle.isNone then
    Outcome.thrown { message := "File content missing." }
  else if !env.apiKeyOk then
    Outcome.thrown { message := "API Key missing." }
  else
    Outcome.ok (uploadTryCatch2 fileDoc env)

/-- A concrete pending document, as produced by file selection. -/
def baseDoc : FileDocument :=
  { id := "doc-1", name := "report.pdf", content := "", fileHandle := some (),
    mimeType := "application/pdf", type := ".pdf", size := 2048, uploadDate := 0,
    status := some FileStatus.pending }

/-- A document whose native file handle is missing. -/
def noHandleDoc : FileDocument := { baseDoc with fileHandle := none }

/-- A variant-1 environment in which every step succeeds. -/
def envV1AllOk : EnvV1 :=
  { apiKeyOk := true, storeResult := Except.ok "fileSearchStores/s1",
    uploadResult := Except.ok (some "files/abc"),
    importDone := Except.ok false, pollResults := [Except.ok true] }

/-- A variant-2 environment in which every step succeeds. -/
def envV2AllOk : EnvV2 :=
  { apiKeyOk := true, uploadResult := Except.ok (some "files/abc"),
    fileGetResults := fun _ => Except.ok FileState.active,
    storeCache := none, storeGetOutcome := Except.ok (),
    storeCreateOutcome := Except.ok (some "fileSearchStores/s2"),
    createFileOutcome := Except.ok () }

/-- C3 counterexample: for a document with no file handle, both variants of
`uploadFileToGemini` throw past their boundary (lines 189-191 and 478 sit
before the try/catch), so "for every input file document ... never throws"
is false as stated. -/
theorem uploadFileToGemini_throws_on_missing_handle :
    uploadFileToGemini1 noHandleDoc envV1AllOk =
      Outcome.thrown { message := "No file handle found for upload" } ∧
    uploadFileToGemini2 noHandleDoc envV2AllOk =
      Outcome.thrown { message := "File content missing." } := by
  constructor <;> rfl

/-- C3 (amended): for every document that has a file handle, and with the
API key configured, neither variant's `uploadFileToGemini` ever throws past
its boundary: every failure of the store-resolution, upload, import,
wait-for-active and add-to-store steps is caught and converted into a
returned document; variant 2 always returns a document, and variant 1
returns a document in every run in which its poll loop settles. -/
theorem uploadFileToGemini_no_throw (doc : FileDocument) (env1 : EnvV1) (env2 : EnvV2)
    (h : doc.fileHandle.isSome = true) (hk1 : env1.apiKeyOk = true)
    (hk2 : env2.apiKeyOk = true) :
    (uploadFileToGemini1 doc env1).isThrown = false ∧
    uploadFileToGemini2 doc env2 = Outcome.ok (uploadTryCatch2 doc env2) := by
  obtain ⟨u, hu⟩ := Option.isSome_iff_exists.mp h
  constructor
  · cases hts : uploadTryCatch1 doc env1 <;>
      simp [uploadFileToGemini1, hu, hk1, hts, Outcome.isThrown]
  · simp [uploadFileToGemini2, hu, hk2]

/-- Witness for C3 at a concrete document and all-success environments. -/
theorem uploadFileToGemini_no_throw_witness :
    (uploadFileToGemini1 baseDoc envV1AllOk).isThrown = false ∧
    uploadFileToGemini2 baseDoc envV2AllOk = Outcome.ok (uploadTryCatch2 baseDoc envV2AllOk) :=
  uploadFileToGemini_no_throw baseDoc envV1AllOk envV2AllOk rfl rfl rfl

/-- Fields of a variant-1 success document: status active, truthy
uploadUri, and the input's error field spread through unchanged. -/
theorem activeDocV1_shape (doc : FileDocument) (un : Option String)
    (hf : jsStrFalsy un = false) :
    (activeDocV1 doc (un.getD "")).status = some FileStatus.active ∧
    (activeDocV1 doc (un.getD "")).uploadUri.getD "" ≠ "" ∧
    (activeDocV1 doc (un.getD "")).error = doc.error := by
  refine ⟨rfl, ?_, rfl⟩
  simpa [activeDocV1] using jsStrFalsy_false_getD hf

/-- A previously-uploaded document that failed later: it still carries a
remote reference and an error message. -/
def staleDoc : FileDocument :=
  { baseDoc with uploadUri := some "files/old123", error := some "previous failure" }

/-- A variant-1 environment whose upload step fails permanently. -/
def envV1UploadFail : EnvV1 :=
  { apiKeyOk := true, storeResult := Except.ok "fileSearchStores/s1",
    uploadResult := Except.error { message := "network down", status := some 400 },
    importDone := Except.ok true, pollResults := [] }

/-- C4 counterexample: on a failed run, `uploadFileToGemini` returns the
document with status error but with the input's remote reference spread
through unchanged (`files/old123`, not empty); and on a successful
variant-1 run the previous error message is likewise spread through
unchanged rather than cleared. -/
theorem uploadFileToGemini_field_preservation_counterexample :
    uploadFileToGemini1 staleDoc envV1UploadFail =
      Outcome.ok { staleDoc with
                   status := some FileStatus.error,
                   error := some "network down" } ∧
    ({ staleDoc with
       status := some FileStatus.error,
       error := some "network down" } : FileDocument).uploadUri = some "files/old123" ∧
    uploadFileToGemini1 staleDoc envV1AllOk =
      Outcome.ok { staleDoc with
                   uploadUri := some "files/abc",
                   status := some FileStatus.active } ∧
    ({ staleDoc with
       uploadUri := some "files/abc",
       status := some FileStatus.active } : FileDocument).error = some "previous failure" := by
  refine ⟨by decide, by decide, by decide, by decide⟩

/-- C4 (amended): when a pipeline run returns a document, that document has
either status active with a non-empty remote reference — with the error
field cleared by variant 2 but spread through unchanged by variant 1 — or
status error with the remote reference left exactly as it was on the input
document (hence empty precisely when the input's was). -/
theorem uploadFileToGemini_result_shape (doc : FileDocument) (env1 : EnvV1)
    (env2 : EnvV2) (d : FileDocument) (h : uploadTryCatch1 doc env1 = some d) :
    ((d.status = some FileStatus.active ∧ d.uploadUri.getD "" ≠ "" ∧
        d.error = doc.error) ∨
      (d.status = some FileStatus.error ∧ d.uploadUri = doc.uploadUri)) ∧
    (((uploadTryCatch2 doc env2).status = some FileStatus.active ∧
        (uploadTryCatch2 doc env2).uploadUri.getD "" ≠ "" ∧
        (uploadTryCatch2 doc env2).error = none) ∨
      ((uploadTryCatch2 doc env2).status = some FileStatus.error ∧
        (uploadTryCatch2 doc env2).uploadUri = doc.uploadUri)) := by
  constructor
  · cases hsr : env1.storeResult with
    | error e =>
      simp only [uploadTryCatch1, hsr, Option.some.injEq] at h
      subst h; right; exact ⟨rfl, rfl⟩
    | ok st =>
      cases hur : env1.uploadResult with
      | error e =>
        simp only [uploadTryCatch1, hsr, hur, Option.some.injEq] at h
        subst h; right; exact ⟨rfl, rfl⟩
      | ok un =>
        cases hf : jsStrFalsy un with
        | true =>
          simp only [uploadTryCatch1, hsr, hur, hf, if_true, Option.some.injEq] at h
          subst h; right; exact ⟨rfl, rfl⟩
        | false =>
          cases hid : env1.importDone with
          | error e =>
            simp only [uploadTryCatch1, hsr, hur, hf, hid, Bool.false_eq_true,
              if_false, Option.some.injEq] at h
            subst h; right; exact ⟨rfl, rfl⟩
          | ok done0 =>
            cases done0 with
            | true =>
              simp only [uploadTryCatch1, hsr, hur, hf, hid, Bool.false_eq_true,
                if_false, Option.some.injEq] at h
              subst h; left; exact activeDocV1_shape doc un hf
            | false =>
              cases hfs : firstSettle env1.pollResults with
              | none =>
                simp only [uploadTryCatch1, hsr, hur, hf, hid, hfs,
                  Bool.false_eq_true, if_false] at h
                exact Option.noConfusion h
              | some settle =>
                cases settle with
                | error e =>
                  simp only [uploadTryCatch1, hsr, hur, hf, hid, hfs,
                    Bool.false_eq_true, if_false, Option.some.injEq] at h
                  subst h; right; exact ⟨rfl, rfl⟩
                | ok u =>
                  simp only [uploadTryCatch1, hsr, hur, hf, hid, hfs,
                    Bool.false_eq_true, if_false, Option.some.injEq] at h
                  subst h; left; exact activeDocV1_shape doc un hf
  · cases hur : env2.uploadResult with
    | error e => right; simp [uploadTryCatch2, hur, errDocV2]
    | ok un =>
      cases hf : jsStrFalsy un with
      | true => right; simp [uploadTryCatch2, hur, hf, errDocV2]
      | false =>
        cases hw : waitResultToExcept (waitForFileActive env2.fileGetResults) with
        | error e => right; simp [uploadTryCatch2, hur, hf, hw, errDocV2]
        | ok u =>
          cases hs : (getOrCreateStore env2.storeCache env2.storeGetOutcome
              env2.storeCreateOutcome).result with
          | error e => right; simp [uploadTryCatch2, hur, hf, hw, hs, errDocV2]
          | ok sn =>
            cases hc : env2.createFileOutcome with
            | error e => right; simp [uploadTryCatch2, hur, hf, hw, hs, hc, errDocV2]
            | ok u2 =>
              left
              refine ⟨?_, ?_, ?_⟩ <;>
                simp [uploadTryCatch2, hur, hf, hw, hs, hc]
              exact jsStrFalsy_false_getD hf

/-- Witness for C4 at a concrete document and environments. -/
theorem uploadFileToGemini_result_shape_witness :
    (((uploadTryCatch1 baseDoc envV1AllOk).getD baseDoc).status = some FileStatus.active ∧
        ((uploadTryCatch1 baseDoc envV1AllOk).getD baseDoc).uploadUri.getD "" ≠ "" ∧
        ((uploadTryCatch1 baseDoc envV1AllOk).getD baseDoc).error = baseDoc.error) ∨
      (((uploadTryCatch1 baseDoc envV1AllOk).getD baseDoc).status = some FileStatus.error ∧
        ((uploadTryCatch1 baseDoc envV1AllOk).getD baseDoc).uploadUri = baseDoc.uploadUri) := by
  have hrun : uploadTryCatch1 baseDoc envV1AllOk =
      some ((uploadTryCatch1 baseDoc envV1AllOk).getD baseDoc) := by decide
  exact (uploadFileToGemini_result_shape baseDoc envV1AllOk envV2AllOk
    ((uploadTryCatch1 baseDoc envV1AllOk).getD baseDoc) hrun).1

/-- The suspension-point outcomes of `deleteFileFromGemini` (lines
531-538): API key presence (`getAiClient`, line 532, outside the try) and
the final outcome of `withRetry(ai.files.delete)` (line 534). -/
structure DeleteEnv where
  apiKeyOk : Bool
  deleteOutcome : Except JsError Unit

/-- `deleteFileFromGemini` (lines 531-538): the try/catch swallows every
deletion failure (it is only logged, line 536), so given a client the call
always resolves. -/
def deleteFileFromGemini (uri : String) (env : DeleteEnv) : Outcome Unit :=
  if !env.apiKeyOk then Outcome.thrown { message := "API Key missing." }
  else
    match env.deleteOutcome with
    | Except.ok _ => Outcome.ok ()
    | Except.error _ => Outcome.ok ()

/-- C10: with the API key configured, `deleteFileFromGemini` resolves
normally for every resource name and every deletion outcome — a remote
deletion failure, even after all retries, is only logged and never
propagated to the caller. -/
theorem deleteFileFromGemini_total (uri : String) (env : DeleteEnv)
    (hk : env.apiKeyOk = true) :
    deleteFileFromGemini uri env = Outcome.ok () := by
  cases hd : env.deleteOutcome <;> simp [deleteFileFromGemini, hk, hd]

/-- Witness for C10 at a failing remote deletion. -/
theorem deleteFileFromGemini_total_witness :
    deleteFileFromGemini "files/abc"
      { apiKeyOk := true,
        deleteOutcome := Except.error { message := "deletion rejected", status := some 500 } } =
      Outcome.ok () :=
  deleteFileFromGemini_total "files/abc"
    { apiKeyOk := true,
      deleteOutcome := Except.error { message := "deletion rejected", status := some 500 } }
    rfl

/-- A streamed response fragment (`GenerateContentResponse`): its text (a
possibly-absent string) and its optional grounding metadata, the latter
kept opaque up to the count of citation chunks it carries. -/
structure StreamChunk where
  text : Option String
  metadata : Option Nat
  deriving Repr, DecidableEq

/-- The streaming loop of variant 2's `sendMessageStream` (lines 608-614):
every fragment produces one `onChunk(text || "", meta)` call and its text
(defaulted to empty) is appended to `fullText`.  Returns the accumulated
text and the list of `onChunk` invocations in order. -/
def relayChunks2 : List StreamChunk → String × List (String × Option Nat)
  | [] => ("", [])
  | c :: rest =>
    let t := c.text.getD ""
    let r := relayChunks2 rest
    (t ++ r.1, (t, c.metadata) :: r.2)

/-- The visibility test of variant 1's streaming loop (line 344):
`if (text || metadata)` — a fragment with falsy text and no metadata is
skipped entirely. -/
def chunkVisible (c : StreamChunk) : Bool :=
  !jsStrFalsy c.text || c.metadata.isSome

/-- The streaming loop of variant 1's `sendMessageStream` (lines 339-350):
a fragment is relayed only when its text is truthy or metadata is present;
`fullText` is extended only by truthy text. -/
def relayChunks1 : List StreamChunk → String × List (String × Option Nat)
  | [] => ("", [])
  | c :: rest =>
    let r := relayChunks1 rest
    if chunkVisible c then
      (c.text.getD "" ++ r.1, (c.text.getD "", c.metadata) :: r.2)
    else r

/-- Variant 2's module-level chat state: the singleton `currentChat`
(line 540, identified by a session id) and the cached `activeStoreName`
(line 380). -/
structure ChatState where
  currentChat : Option Nat
  activeStoreName : Option String
  deriving Repr, DecidableEq

/-- The suspension-point outcomes crossed by variant 2's
`initializeChatSession` when called with no explicit store name (lines
546-591): the `getOrCreateStore` collaborators, the first `ai.chats.create`
outcome, and — for the 404-retry path at lines 575-587 — the second
`getOrCreateStore` create outcome and second `ai.chats.create` outcome. -/
structure InitEnv where
  storeGetOutcome : Except JsError Unit
  storeCreateOutcome : Except JsError (Option String)
  chatCreateOutcome : Except JsError Nat
  retryStoreCreateOutcome : Except JsError (Option String)
  retryChatCreateOutcome : Except JsError Nat

/-- Variant 2's `initializeChatSession` with no explicit store name (lines
546-591): resolve the store (outside the try), then create the chat
session; if creation throws a 404 the cached store name is reset and both
steps are retried exactly once.  Returns the result, the new state, and
the number of `ai.chats.create` calls issued. -/
def initChatSession (st : ChatState) (env : InitEnv) :
    Except JsError Nat × ChatState × Nat :=
  let res := getOrCreateStore st.activeStoreName env.storeGetOutcome env.storeCreateOutcome
  match res.result with
  | Except.error e =>
    (Except.error e, { st with activeStoreName := res.newCache }, 0)
  | Except.ok _targetStore =>
    match env.chatCreateOutcome with
    | Except.ok c =>
      (Except.ok c, { currentChat := some c, activeStoreName := res.newCache }, 1)
    | Except.error e =>
      if getErrorStatus (some e) == 404 then
        let res2 := getOrCreateStore none env.storeGetOutcome env.retryStoreCreateOutcome
        match res2.result with
        | Except.error e2 =>
          (Except.error e2, { st with activeStoreName := res2.newCache }, 1)
        | Except.ok _ts2 =>
          match env.retryChatCreateOutcome with
          | Except.ok c =>
            (Except.ok c, { currentChat := some c, activeStoreName := res2.newCache }, 2)
          | Except.error e2 =>
            (Except.error e2, { st with activeStoreName := res2.newCache }, 2)
      else (Except.error e, { st with activeStoreName := res.newCache }, 1)

/-- The suspension-point outcomes crossed by variant 2's
`sendMessageStream` (lines 596-627): the initialization collaborators
(used only when no session is cached) and the final outcome of
`withRetry(currentChat.sendMessageStream)` — an obtained stream being the
list of its fragments. -/
structure SendEnv where
  init : InitEnv
  sendOutcome : Except JsError (List StreamChunk)

/-- The try/catch of variant 2's `sendMessageStream` (lines 604-626): on a
stream, relay the fragments and return the accumulated text; on a 404-class
error, null both `currentChat` and `activeStoreName` and throw the
session-expired error; on any other error rethrow it unchanged. -/
def sendCore (st : ChatState) (creations : Nat)
    (sendOutcome : Except JsError (List StreamChunk)) :
    Except JsError String × ChatState × Nat :=
  match sendOutcome with
  | Except.ok chunks => (Except.ok (relayChunks2 chunks).1, st, creations)
  | Except.error e =>
    if getErrorStatus (some e) == 404 then
      (Except.error { message := "Session context expired. Please try sending your message again." },
        { currentChat := none, activeStoreName := none }, creations)
    else (Except.error e, st, creations)

/-- Variant 2's `sendMessageStream` (lines 596-627): initialize a session
first when none is cached (outside the try, so an init failure propagates
unchanged), then run the caught send.  Returns the result, the new state,
and the number of session creations performed. -/
def sendMessageStream2 (st : ChatState) (env : SendEnv) :
    Except JsError String × ChatState × Nat :=
  match st.currentChat with
  | some _ => sendCore st 0 env.sendOutcome
  | none =>
    match initChatSession st env.init with
    | (Except.error e, st1, n) => (Except.error e, st1, n)
    | (Except.ok _, st1, n) => sendCore st1 n env.sendOutcome

/-- The suspension-point outcomes crossed by variant 1's
`sendMessageStream` (lines 320-359): the `initializeChatSession` outcome
(used only when no session is cached; one `ai.chats.create` call) and the
message-stream outcome. -/
structure SendEnv1 where
  initOutcome : Except JsError Nat
  sendOutcome : Except JsError (List StreamChunk)

/-- Variant 1's `sendMessageStream` (lines 320-359): auto-initialize when
no session is cached, relay the stream with the visibility filter, and on
any error just log and rethrow it — the cached `currentChatSession` is NOT
invalidated (the catch at lines 355-358 performs no state change).
Returns the result, the new `currentChatSession`, and the number of
session creations performed. -/
def sendMessageStream1 (currentChatSession : Option Nat) (env : SendEnv1) :
    Except JsError String × Option Nat × Nat :=
  match currentChatSession with
  | none =>
    match env.initOutcome with
    | Except.error e => (Except.error e, none, 1)
    | Except.ok c =>
      match env.sendOutcome with
      | Except.ok chunks => (Except.ok (relayChunks1 chunks).1, some c, 1)
      | Except.error e => (Except.error e, some c, 1)
  | some c =>
    match env.sendOutcome with
    | Except.ok chunks => (Except.ok (relayChunks1 chunks).1, some c, 0)
    | Except.error e => (Except.error e, some c, 0)

instance {ε α : Type} [DecidableEq ε] [DecidableEq α] : DecidableEq (Except ε α) :=
  fun x y =>
    match x, y with
    | Except.ok a, Except.ok b =>
      if h : a = b then isTrue (by rw [h])
      else isFalse (fun hc => h (by cases hc; rfl))
    | Except.error a, Except.error b =>
      if h : a = b then isTrue (by rw [h])
      else isFalse (fun hc => h (by cases hc; rfl))
    | Except.ok _, Except.error _ => isFalse (fun hc => Except.noConfusion hc)
    | Except.error _, Except.ok _ => isFalse (fun hc => Except.noConfusion hc)

/-- A 404-class error thrown by a message send. -/
def err404 : JsError := { message := "store not found", status := some 404 }

/-- C7 counterexample: variant 1's `sendMessageStream`, cited by the claim,
does not invalidate the cached session on a 404-class send failure — the
catch at lines 355-358 rethrows with no state change — so the next send
reuses the stale session and performs zero new session creations, and the
error that propagates is the original one. -/
theorem sendMessageStream_keeps_stale_session_counterexample :
    (sendMessageStream1 (some 5)
        { initOutcome := Except.ok 9, sendOutcome := Except.error err404 }).2.1 = some 5 ∧
    (sendMessageStream1 (some 5)
        { initOutcome := Except.ok 9, sendOutcome := Except.error err404 }).1 =
      Except.error err404 ∧
    (sendMessageStream1 (some 5)
        { initOutcome := Except.ok 9, sendOutcome := Except.ok [] }).2.2 = 0 := by
  refine ⟨rfl, rfl, rfl⟩

/-- C7 (amended): in variant 2, a send that fails with a 404-class error
invalidates both the cached session and the cached store name and
propagates a session-expired error (with zero session creations on that
call); the next send call, starting from the invalidated state, performs
exactly one new session creation before dispatching its message.  In
variant 1 the same failure propagates the original error unchanged but
leaves the cached session in place, so its next send performs no creation. -/
theorem sendMessageStream2_invalidates_on_404
    (st : ChatState) (env envNext : SendEnv) (env1 : SendEnv1)
    (c : Nat) (e : JsError) (chunks : List StreamChunk) (c2 : Nat) (n : String)
    (hc : st.currentChat = some c)
    (hs : env.sendOutcome = Except.error e)
    (h404 : getErrorStatus (some e) = 404)
    (hnc : envNext.init.storeCreateOutcome = Except.ok (some n))
    (hncc : envNext.init.chatCreateOutcome = Except.ok c2)
    (hns : envNext.sendOutcome = Except.ok chunks)
    (h1s : env1.sendOutcome = Except.error e) :
    sendMessageStream2 st env =
      (Except.error { message := "Session context expired. Please try sending your message again." },
        { currentChat := none, activeStoreName := none }, 0) ∧
    sendMessageStream2 ((sendMessageStream2 st env).2.1) envNext =
      (Except.ok (relayChunks2 chunks).1,
        { currentChat := some c2, activeStoreName := some n }, 1) ∧
    sendMessageStream1 (some c) env1 = (Except.error e, some c, 0) := by
  have h1 : sendMessageStream2 st env =
      (Except.error { message := "Session context expired. Please try sending your message again." },
        ({ currentChat := none, activeStoreName := none } : ChatState), 0) := by
    simp [sendMessageStream2, hc, sendCore, hs, h404]
  refine ⟨h1, ?_, ?_⟩
  · rw [h1]
    simp [sendMessageStream2, initChatSession, getOrCreateStore, createStoreHalf,
      hnc, hncc, hns, sendCore]
  · simp [sendMessageStream1, h1s]

/-- A concrete post-invalidation environment whose store and session
creations succeed. -/
def envSendNext : SendEnv :=
  { init := { storeGetOutcome := Except.ok (),
              storeCreateOutcome := Except.ok (some "fileSearchStores/s3"),
              chatCreateOutcome := Except.ok 6,
              retryStoreCreateOutcome := Except.ok none,
              retryChatCreateOutcome := Except.ok 0 },
    sendOutcome := Except.ok [{ text := some "hello", metadata := none }] }

/-- A concrete environment whose send fails with a 404-class error. -/
def envSend404 : SendEnv :=
  { init := envSendNext.init, sendOutcome := Except.error err404 }

/-- Witness for C7 at a concrete cached session and environments. -/
theorem sendMessageStream2_invalidates_on_404_witness :
    sendMessageStream2 { currentChat := some 5, activeStoreName := some "fileSearchStores/s1" } envSend404 =
      (Except.error { message := "Session context expired. Please try sending your message again." },
        { currentChat := none, activeStoreName := none }, 0) ∧
    sendMessageStream2
        ((sendMessageStream2 { currentChat := some 5, activeStoreName := some "fileSearchStores/s1" } envSend404).2.1)
        envSendNext =
      (Except.ok (relayChunks2 [{ text := some "hello", metadata := none }]).1,
        { currentChat := some 6, activeStoreName := some "fileSearchStores/s3" }, 1) ∧
    sendMessageStream1 (some 5)
        { initOutcome := Except.ok 9, sendOutcome := Except.error err404 } =
      (Except.error err404, some 5, 0) :=
  sendMessageStream2_invalidates_on_404
    { currentChat := some 5, activeStoreName := some "fileSearchStores/s1" }
    envSend404 envSendNext
    { initOutcome := Except.ok 9, sendOutcome := Except.error err404 }
    5 err404 [{ text := some "hello", metadata := none }] 6 "fileSearchStores/s3"
    rfl rfl rfl rfl rfl rfl rfl

/-- The text contributed by a fragment sequence: each fragment's text,
defaulted to empty, concatenated in arrival order. -/
def concatTexts (chunks : List StreamChunk) : String :=
  chunks.foldr (fun c acc => c.text.getD "" ++ acc) ""

/-- C8 counterexample: a fragment with no text and no metadata is consumed
by variant 1's loop without any `onChunk` invocation (the `if (text ||
metadata)` guard at line 344 skips it), so "invoked once per fragment" is
false as stated; variant 2 does invoke `onChunk` for it. -/
theorem relayChunks1_skips_empty_fragment :
    (relayChunks1 [{ text := none, metadata := none }]).2 = [] ∧
    ([{ text := none, metadata := none }] : List StreamChunk).length = 1 ∧
    (relayChunks2 [{ text := none, metadata := none }]).2 = [("", none)] := by
  refine ⟨rfl, rfl, rfl⟩

/-- C8 (amended): for every finite fragment sequence, variant 2 invokes
`onChunk` exactly once per fragment in arrival order with the fragment's
text (defaulted to empty) and its metadata, while variant 1 invokes it
exactly once per fragment that has truthy text or metadata, skipping the
rest; in both variants the returned `fullText` equals the concatenation of
the fragments' texts in arrival order. -/
theorem sendMessageStream_relay_order (chunks : List StreamChunk) :
    (relayChunks2 chunks).1 = concatTexts chunks ∧
    (relayChunks2 chunks).2 = chunks.map (fun c => (c.text.getD "", c.metadata)) ∧
    (relayChunks1 chunks).1 = concatTexts chunks ∧
    (relayChunks1 chunks).2 =
      (chunks.filter chunkVisible).map (fun c => (c.text.getD "", c.metadata)) := by
  induction chunks with
  | nil => exact ⟨rfl, rfl, rfl, rfl⟩
  | cons c rest ih =>
    obtain ⟨ih1, ih2, ih3, ih4⟩ := ih
    refine ⟨?_, ?_, ?_, ?_⟩
    · simp [relayChunks2, concatTexts, ih1]
    · simp [relayChunks2, ih2]
    · cases hv : chunkVisible c with
      | true => simp [relayChunks1, hv, concatTexts, ih3]
      | false =>
        have ht : c.text.getD "" = "" := by
          have : jsStrFalsy c.text = true := by
            simp [chunkVisible] at hv
            exact hv.1
          cases hct : c.text with
          | none => rfl
          | some s =>
            rw [hct] at this
            simpa [jsStrFalsy] using this
        simp [relayChunks1, hv, concatTexts, ih3, ht]
    · cases hv : chunkVisible c with
      | true => simp [relayChunks1, hv, List.filter, ih4]
      | false => simp [relayChunks1, hv, List.filter, ih4]

/-- A browser-supplied file as inspected by `FileUploader.handleFiles`
(FileUploader.tsx lines 16-29): its name and byte size. -/
structure BrowserFile where
  name : String
  size : Nat
  deriving Repr, DecidableEq

/-- `SUPPORTED_EXTENSIONS` (constants.ts lines 1-6). -/
def SUPPORTED_EXTENSIONS : List String :=
  [".txt", ".md", ".json", ".csv",
   ".js", ".jsx", ".ts", ".tsx", ".py",
   ".html", ".css", ".xml", ".sql",
   ".pdf"]

/-- `MAX_FILE_SIZE` (constants.ts line 8): 5 MB. -/
def MAX_FILE_SIZE : Nat := 5 * 1024 * 1024

/-- `MIME_TYPE_MAP` (constants.ts lines 10-25). -/
def MIME_TYPE_MAP : List (String × String) :=
  [("txt", "text/plain"), ("md", "text/markdown"), ("json", "application/json"),
   ("csv", "text/csv"), ("js", "text/javascript"), ("jsx", "text/javascript"),
   ("ts", "text/javascript"), ("tsx", "text/javascript"), ("py", "text/x-python"),
   ("html", "text/html"), ("css", "text/css"), ("xml", "text/xml"),
   ("sql", "application/x-sql"), ("pdf", "application/pdf")]

/-- The characters after the last dot of a name (the whole name when it
has no dot), accumulating the current segment and restarting it at each
dot: exactly the value of `name.split('.').pop()`. -/
def afterLastDot : List Char → List Char → List Char
  | [], acc => acc.reverse
  | c :: rest, acc =>
    if c = '.' then afterLastDot rest []
    else afterLastDot rest (c :: acc)

/-- JavaScript `toLowerCase`, character by character. -/
def jsToLower (s : String) : String :=
  String.mk (s.data.map Char.toLower)

/-- JavaScript `toUpperCase`, character by character. -/
def jsToUpper (s : String) : String :=
  String.mk (s.data.map Char.toUpper)

/-- `file.name.split('.').pop()?.toLowerCase()` (line 18): the last
dot-separated segment, lowercased; `split` never yields an empty array, so
this is present for every name. -/
def extRawOf (name : String) : Option String :=
  some (jsToLower (String.mk (afterLastDot name.data [])))

/-- `const ext = extRaw ? '.' + extRaw : ''` (line 19). -/
def extOf (name : String) : String :=
  match extRawOf name with
  | some s => if s == "" then "" else "." ++ s
  | none => ""

/-- `MIME_TYPE_MAP[extRaw || 'txt']`'s key (line 32): a falsy raw
extension falls back to txt. -/
def mimeKeyOf (name : String) : String :=
  match extRawOf name with
  | some s => if s == "" then "txt" else s
  | none => "txt"

/-- Whether the first list is a prefix of the second, character by
character. -/
def charsPrefix : List Char → List Char → Bool
  | [], _ => true
  | _ :: _, [] => false
  | a :: as, b :: bs => a == b && charsPrefix as bs

/-- Whether `sub` occurs contiguously inside the second list. -/
def charsContainsSub (sub : List Char) : List Char → Bool
  | [] => charsPrefix sub []
  | c :: rest => charsPrefix sub (c :: rest) || charsContainsSub sub rest

/-- JavaScript `String.prototype.startsWith`. -/
def jsStartsWith (s p : String) : Bool :=
  charsPrefix p.data s.data

/-- JavaScript `String.prototype.includes`. -/
def jsIncludes (s sub : String) : Bool :=
  charsContainsSub sub.data s.data

/-- The per-file body of `FileUploader.handleFiles` (lines 16-55): skip the
file when its extension is unsupported (line 21) or its size exceeds the
limit (line 26), both checked before any file content is touched; otherwise
read a text preview when the MIME type is text-like (line 36) — a read
failure is caught and the file skipped (lines 53-55) — and produce a
pending document.  The randomly generated id and the selection timestamp
are modelled as constants; `readText` is the `readFileAsText` collaborator. -/
def processOne (readText : BrowserFile → Except String String)
    (file : BrowserFile) : Option FileDocument :=
  let ext := extOf file.name
  if !(SUPPORTED_EXTENSIONS.contains ext) then none
  else if decide (MAX_FILE_SIZE < file.size) then none
  else
    let mimeType := (MIME_TYPE_MAP.lookup (mimeKeyOf file.name)).getD "text/plain"
    let contentRes :=
      if jsStartsWith mimeType "text/" || mimeType == "application/json" ||
          jsIncludes mimeType "sql" || jsIncludes mimeType "xml" then
        readText file
      else Except.ok ("[Preview not available for " ++ jsToUpper ext ++ " files]")
    match contentRes with
    | Except.error _ => none
    | Except.ok content =>
      some { id := "", name := file.name, content := content, fileHandle := some (),
             mimeType := mimeType, type := ext, size := file.size, uploadDate := 0,
             status := some FileStatus.pending }

/-- `FileUploader.handleFiles` (lines 11-61): the list of documents handed
to `onFilesAdded` — the only way a selected file reaches the upload
pipeline.  The function itself performs no network call and never touches
the index store. -/
def handleFiles (readText : BrowserFile → Except String String)
    (files : List BrowserFile) : List FileDocument :=
  files.filterMap (processOne readText)

/-- A document produced by `processOne` comes from a file that passed both
the extension and the size check. -/
theorem processOne_checks {readText : BrowserFile → Except String String}
    {g : BrowserFile} {d : FileDocument} (h : processOne readText g = some d) :
    SUPPORTED_EXTENSIONS.contains d.type = true ∧ d.size ≤ MAX_FILE_SIZE := by
  by_cases hc : SUPPORTED_EXTENSIONS.contains (extOf g.name) = true
  · by_cases hsz : MAX_FILE_SIZE < g.size
    · simp only [processOne, hc, Bool.not_true, Bool.false_eq_true, if_false] at h
      rw [if_pos (decide_eq_true hsz)] at h
      exact Option.noConfusion h
    · have hfields : d.type = extOf g.name ∧ d.size = g.size := by
        simp only [processOne, hc, Bool.not_true, Bool.false_eq_true, if_false] at h
        rw [if_neg (by simpa using hsz)] at h
        split at h
        · exact Option.noConfusion h
        · cases h
          exact ⟨rfl, rfl⟩
      rw [hfields.1, hfields.2]
      exact ⟨hc, Nat.le_of_not_lt hsz⟩
  · rw [Bool.not_eq_true] at hc
    simp only [processOne, hc, Bool.not_false, if_true] at h
    exact Option.noConfusion h

/-- C9: a selected file whose extension is not in the supported list or
whose size exceeds the 5 MB limit is rejected during selection —
`processOne` yields no document for it, so it is never handed to
`onFilesAdded` and hence never reaches the upload pipeline, no network
call is made for it and the index store is untouched (`handleFiles` is
pure selection-time code); conversely every document that is handed over
records a supported extension and a size within the limit. -/
theorem fileUploader_rejects_invalid (readText : BrowserFile → Except String String)
    (files : List BrowserFile) (f : BrowserFile) (d : FileDocument)
    (h : SUPPORTED_EXTENSIONS.contains (extOf f.name) = false ∨ MAX_FILE_SIZE < f.size)
    (hd : d ∈ handleFiles readText files) :
    processOne readText f = none ∧
    SUPPORTED_EXTENSIONS.contains d.type = true ∧ d.size ≤ MAX_FILE_SIZE := by
  have hmem : ∃ g ∈ files, processOne readText g = some d := by
    simpa [handleFiles, List.mem_filterMap] using hd
  obtain ⟨g, _, hpg⟩ := hmem
  refine ⟨?_, processOne_checks hpg⟩
  cases h with
  | inl hc => simp only [processOne, hc, Bool.not_false, if_true]
  | inr hsz =>
    by_cases hc : SUPPORTED_EXTENSIONS.contains (extOf f.name) = true
    · simp only [processOne, hc, Bool.not_true, Bool.false_eq_true, if_false]
      rw [if_pos (decide_eq_true hsz)]
    · rw [Bool.not_eq_true] at hc
      simp only [processOne, hc, Bool.not_false, if_true]

/-- Witness for C9: a 10-byte executable among the selected files is
rejected while the accompanying text file's document records its passed
checks. -/
theorem fileUploader_rejects_invalid_witness :
    processOne (fun _ => Except.ok "content") { name := "malware.exe", size := 10 } = none ∧
    SUPPORTED_EXTENSIONS.contains
      ({ id := "", name := "notes.txt", content := "content", fileHandle := some (),
         mimeType := "text/plain", type := ".txt", size := 10, uploadDate := 0,
         status := some FileStatus.pending } : FileDocument).type = true ∧
    ({ id := "", name := "notes.txt", content := "content", fileHandle := some (),
       mimeType := "text/plain", type := ".txt", size := 10, uploadDate := 0,
       status := some FileStatus.pending } : FileDocument).size ≤ MAX_FILE_SIZE :=
  fileUploader_rejects_invalid (fun _ => Except.ok "content")
    [{ name := "notes.txt", size := 10 }, { name := "malware.exe", size := 10 }]
    { name := "malware.exe", size := 10 }
    { id := "", name := "notes.txt", content := "content", fileHandle := some (),
      mimeType := "text/plain", type := ".txt", size := 10, uploadDate := 0,
      status := some FileStatus.pending }
    (Or.inl (by decide))
    (by decide)
